import Mathlib

/-
  Verification of the Photo-Map-Tool core (src/main.py) against its
  natural-language specification.

  Shallow embedding conventions:
  * Python float values become rationals; machine rounding is irrelevant to
    the verified properties, which only compare values and order them.
  * Python dictionaries with string keys become association lists updated by
    dictInsert, which keeps the position of an existing key, as CPython does.
  * Python None becomes Option.none.  A Python dict that may or may not carry
    a key k, where every consumer reads it with .get, is modelled by an
    Option-valued field, since a missing key and a key holding None are
    indistinguishable through .get.
  * Python truthiness of an optional string (None and the empty string are
    falsy) is pyStrB; truthiness of an optional float (None and 0.0 are
    falsy) appears inline where the source relies on it.
  * File contents are modelled at row granularity: one CSV data row becomes
    one CsvRow.  A numeric cell is empty, a number, or unparseable text
    (NumCell.bad), exactly the three cases float(...) distinguishes.
  * I/O collaborators (EXIF reading, the Nominatim HTTP call, reading one
    folder CSV during the combined rebuild) are oracles passed as function
    arguments; the logic around them is translated from the source.
-/

/-- Python truthiness of an optional string: None and the empty string are
falsy, every other string is truthy. -/
def pyStrB : Option String → Bool
  | none => false
  | some s => s != ""

/-- Reading a CSV text cell back, as in the source: row.get(k) or None,
which maps the empty string to None. -/
def strOpt (s : String) : Option String :=
  if s == "" then none else some s

/-- CPython dict assignment d[k] = v on an association list: an existing key
keeps its position and gets the new value, a new key is appended. -/
def dictInsert [BEq α] : List (α × β) → α → β → List (α × β)
  | [], k, v => [(k, v)]
  | (k', v') :: rest, k, v =>
    if k' == k then (k, v) :: rest else (k', v') :: dictInsert rest k v

/-- In-memory per-photo record, covering both key layouts that occur in the
source: records freshly built during a scan use the keys lat, lon and
datetime, records coming from the CSV loader use latitude, longitude and
datetime_original.  An absent key is none. -/
structure MemRecord where
  lat : Option ℚ := none
  lon : Option ℚ := none
  latitude : Option ℚ := none
  longitude : Option ℚ := none
  country : Option String := none
  city : Option String := none
  datetime : Option String := none
  datetime_original : Option String := none
deriving DecidableEq, Repr

/-- One numeric CSV cell as the loader sees it: empty text, a parseable
number, or text on which float(...) raises. -/
inductive NumCell
  | empty
  | num (q : ℚ)
  | bad
deriving DecidableEq, Repr

/-- One data row of a per-folder cache CSV file, columns as in
CSV_FIELDNAMES. -/
structure CsvRow where
  filepath : String
  latitude : NumCell
  longitude : NumCell
  country : String
  city : String
  datetime_original : String
deriving DecidableEq, Repr

/-- Cell written for an optional number handed to the CSV writer directly
(the right operand of the Python or). -/
def optToCell : Option ℚ → NumCell
  | none => NumCell.empty
  | some q => NumCell.num q

/-- Python expression details.get(a) or details.get(b, empty) on two
optional floats: the first operand wins only when it is truthy, i.e. present
and nonzero; otherwise the second operand is written as is. -/
def pyNumOr (a b : Option ℚ) : NumCell :=
  match a with
  | some q => if q == 0 then optToCell b else NumCell.num q
  | none => optToCell b

/-- Python expression details.get(a) or details.get(b, empty) on two
optional strings. -/
def pyStrOr (a b : Option String) : String :=
  match a with
  | some s => if s == "" then b.getD "" else s
  | none => b.getD ""

/-- Embedding of PhotoMapApp._save_csv_cache: one CSV row per table entry,
in table order, each field rendered exactly as in the source writerow call. -/
def save_csv_cache (data : List (String × MemRecord)) : List CsvRow :=
  data.map fun pd =>
    { filepath := pd.1
      latitude := pyNumOr pd.2.lat pd.2.latitude
      longitude := pyNumOr pd.2.lon pd.2.longitude
      country := pd.2.country.getD ""
      city := pd.2.city.getD ""
      datetime_original := pyStrOr pd.2.datetime pd.2.datetime_original }

/-- Parsing of one numeric cell during load: empty means None, a number
parses, bad text raises (modelled as none at the row level). -/
def parseNum : NumCell → Option (Option ℚ)
  | NumCell.empty => some none
  | NumCell.num q => some (some q)
  | NumCell.bad => none

/-- Building the record for one CSV row, as in the loader body; the whole
row fails when either coordinate cell raises. -/
def parseRow (r : CsvRow) : Option MemRecord :=
  match parseNum r.latitude, parseNum r.longitude with
  | some la, some lo =>
    some { latitude := la
           longitude := lo
           country := strOpt r.country
           city := strOpt r.city
           datetime_original := strOpt r.datetime_original }
  | _, _ => none

/-- Loader loop of _load_csv_cache: rows are folded into a dict; the first
row that raises ends the loop, and the rows accumulated so far are returned
because the try block spans the whole loop. -/
def load_rows : List CsvRow → List (String × MemRecord) → List (String × MemRecord)
  | [], acc => acc
  | r :: rest, acc =>
    match parseRow r with
    | some rec => load_rows rest (dictInsert acc r.filepath rec)
    | none => acc

/-- Embedding of PhotoMapApp._load_csv_cache: an absent file yields the
empty table, otherwise the rows are parsed by load_rows. -/
def load_csv_cache : Option (List CsvRow) → List (String × MemRecord)
  | none => []
  | some rows => load_rows rows []

/-- File content after a save that stops after k rows were written.  The
source opens the target with mode w, which truncates it before anything is
written, so the prior content does not appear in the result at all; the
prior argument is kept to make that visible in the statement. -/
def save_csv_interrupted (prior : Option (List CsvRow))
    (data : List (String × MemRecord)) (k : ℕ) : Option (List CsvRow) :=
  some ((save_csv_cache data).take k)

/-- Result of extract_exif_data for one file: both coordinates or neither,
plus the optional DateTimeOriginal string.  The EXIF reading itself is I/O
and enters the scan as an oracle value. -/
structure ExifData where
  lat : Option ℚ := none
  lon : Option ℚ := none
  datetime : Option String := none
deriving DecidableEq, Repr

/-- One reverse-geocode resolution during a scan, recording the path it was
made for and whether it went to the network (true) or was served from the
session cache (false). -/
structure GeoLookup where
  path : String
  network : Bool
deriving DecidableEq, Repr

/-- Mutable state of process_image_folder: the accumulating table and the
session-scoped Nominatim dedupe cache keyed by rounded coordinates. -/
structure ScanState where
  table : List (String × MemRecord)
  apiCache : List ((ℚ × ℚ) × (Option String × Option String))
deriving DecidableEq, Repr

/-- Rounding to two decimals, as round(x, 2) quantizes the dedupe key. -/
def round2 (q : ℚ) : ℚ := (round (q * 100) : ℤ) / 100

/-- Record written for a file that was geocoded or freshly extracted, with
the fresh key layout of the source dict literal. -/
def freshRec (la lo : ℚ) (c ci : Option String) (dt : Option String) : MemRecord :=
  { lat := some la, lon := some lo, country := c, city := ci, datetime := dt }

/-- Geocoding arm of the per-file body: with both coordinates present the
dedupe cache is consulted and on a miss the network oracle is called and the
cache filled; without coordinates an all-null record carrying only the
timestamp is stored.  Mirrors the inner if of process_image_folder. -/
def scanGeo (fetch : ℚ → ℚ → Option String × Option String)
    (st : ScanState) (file : String × ExifData) : ScanState × List GeoLookup :=
  match file.2.lat, file.2.lon with
  | some la, some lo =>
    let key := (round2 la, round2 lo)
    match st.apiCache.lookup key with
    | some cc =>
      ({ table := dictInsert st.table file.1 (freshRec la lo cc.1 cc.2 file.2.datetime)
         apiCache := st.apiCache }, [⟨file.1, false⟩])
    | none =>
      let cc := fetch la lo
      ({ table := dictInsert st.table file.1 (freshRec la lo cc.1 cc.2 file.2.datetime)
         apiCache := dictInsert st.apiCache key cc }, [⟨file.1, true⟩])
  | _, _ =>
    ({ table := dictInsert st.table file.1 { datetime := file.2.datetime }
       apiCache := st.apiCache }, [])

/-- Per-file body of process_image_folder: skip when the cached record has a
truthy datetime_original; otherwise, when the path is unknown or its country
is falsy, run the geocoding arm; otherwise only refresh datetime_original. -/
def scanStep (fetch : ℚ → ℚ → Option String × Option String)
    (st : ScanState) (file : String × ExifData) : ScanState × List GeoLookup :=
  match st.table.lookup file.1 with
  | some r =>
    if pyStrB r.datetime_original then (st, [])
    else if pyStrB r.country then
      ({ table := dictInsert st.table file.1 { r with datetime_original := file.2.datetime }
         apiCache := st.apiCache }, [])
    else scanGeo fetch st file
  | none => scanGeo fetch st file

/-- Folding the per-file body over the processed files, concatenating the
geocode resolution log. -/
def scanFold (fetch : ℚ → ℚ → Option String × Option String) :
    List (String × ExifData) → ScanState → ScanState × List GeoLookup
  | [], st => (st, [])
  | f :: rest, st =>
    let s1 := scanStep fetch st f
    let s2 := scanFold fetch rest s1.1
    (s2.1, s1.2 ++ s2.2)

/-- Embedding of PhotoMapApp.process_image_folder.  cancelAt is the index of
the first cooperative poll that observes the cancel request (polls happen
once per file, plus a final one before saving); none means never.  The
result is the persisted cache file after the call: untouched when there are
no image files or when cancellation was observed, otherwise the saved table.
The dedupe cache is cleared at the start of the call. -/
def process_image_folder (fetch : ℚ → ℚ → Option String × Option String)
    (oldFile : Option (List CsvRow)) (files : List (String × ExifData))
    (cancelAt : Option ℕ) : Option (List CsvRow) :=
  let cached := load_csv_cache oldFile
  if files.isEmpty then oldFile
  else
    let limit := match cancelAt with
      | none => files.length
      | some k => min k files.length
    let st := (scanFold fetch (files.take limit) { table := cached, apiCache := [] }).1
    match cancelAt with
    | none => some (save_csv_cache st.table)
    | some k => if files.length < k then some (save_csv_cache st.table) else oldFile

/-- Staleness test of load_data_and_display_ui: the stored dataset is reused
only when every observed folder-cache file appears in the stored manifest
with the same modification time and every stored manifest key is still
observed. -/
def freshCheck (stored observed : List (String × ℚ)) : Bool :=
  (observed.all fun pm =>
    match stored.lookup pm.1 with
    | some v => decide (v = pm.2)
    | none => false) &&
  (stored.all fun pm => (observed.lookup pm.1).isSome)

/-- Root-level persisted pair: the parquet dataset and the JSON manifest.
none means the file is missing or unreadable. -/
structure RootState where
  storedDataset : Option (List String)
  storedManifest : Option (List (String × ℚ))
deriving DecidableEq, Repr

/-- Rebuild arm: read every observed folder cache (read failures are skipped),
concatenate, and persist dataset plus observed manifest only when at least
one folder cache was readable; otherwise nothing is written and the Master
dataset is empty. -/
def rebuild_combined (read : String → Option (List String))
    (st : RootState) (observed : List (String × ℚ)) :
    RootState × Bool × List String :=
  let dfs := observed.filterMap fun pm => read pm.1
  if dfs.isEmpty then (st, false, [])
  else (⟨some dfs.flatten, some observed⟩, true, dfs.flatten)

/-- Embedding of the cache logic of load_data_and_display_ui: when both
stored files exist and the manifests agree, the stored dataset is returned
with nothing written; otherwise the combined dataset is rebuilt.  The Bool
reports whether the stored dataset file was written by this call. -/
def load_data (read : String → Option (List String))
    (st : RootState) (observed : List (String × ℚ)) :
    RootState × Bool × List String :=
  match st with
  | ⟨some ds, some m⟩ =>
    if freshCheck m observed then (⟨some ds, some m⟩, false, ds)
    else rebuild_combined read ⟨some ds, some m⟩ observed
  | other => rebuild_combined read other observed

/-- One displayed row entering the clustering sweep: its file path and both
coordinates (rows without coordinates were dropped beforehand). -/
structure PtRec where
  filepath : String
  latitude : ℚ
  longitude : ℚ
deriving DecidableEq, Repr

/-- One cluster as built by _perform_clustering. -/
structure ClusterData where
  id : ℕ
  points : List PtRec
  centroid_lat : ℚ
  centroid_lon : ℚ
  photo_count : ℕ
deriving DecidableEq, Repr

/-- Absorption test of the sweep: the distance from the seed to the
candidate is at most the threshold.  The source computes this distance with
haversine on floats; the distance function enters the embedding as a
parameter with the same argument layout, since the surrounding algorithm
only ever compares its value with the threshold. -/
def near (dist : ℚ → ℚ → ℚ → ℚ → ℚ) (thr : ℚ) (p q : PtRec) : Bool :=
  decide (dist p.latitude p.longitude q.latitude q.longitude ≤ thr)

/-- Greedy seed sweep of _perform_clustering: the first unvisited row seeds a
cluster, every later unvisited row within the threshold of the seed is
absorbed, absorbed rows never seed, and the centroid is the arithmetic mean
of the member coordinates.  Cluster ids count up from the given index. -/
def clusterGo (dist : ℚ → ℚ → ℚ → ℚ → ℚ) (thr : ℚ) :
    List PtRec → ℕ → List ClusterData
  | [], _ => []
  | p :: rest, idx =>
    let members := p :: rest.filter (fun q => near dist thr p q)
    { id := idx
      points := members
      centroid_lat := (members.map PtRec.latitude).sum / (members.length : ℚ)
      centroid_lon := (members.map PtRec.longitude).sum / (members.length : ℚ)
      photo_count := members.length } ::
      clusterGo dist thr (rest.filter fun q => !(near dist thr p q)) (idx + 1)
termination_by l _ => l.length
decreasing_by
  exact Nat.lt_succ_of_le (List.length_filter_le _ _)

/-- Embedding of PhotoMapApp._perform_clustering on the prepared row list. -/
def perform_clustering (dist : ℚ → ℚ → ℚ → ℚ → ℚ) (thr : ℚ)
    (pts : List PtRec) : List ClusterData :=
  clusterGo dist thr pts 0

/-- Address object of a Nominatim response, reduced to the fields the source
reads.  Locality candidate fields are optional strings (a missing key and a
key holding null behave alike under .get).  The state field keeps the
missing-key case apart from the null-value case because the source reads it
with an explicit default. -/
structure Address where
  country : Option String := none
  city : Option String := none
  town : Option String := none
  village : Option String := none
  hamlet : Option String := none
  municipality : Option String := none
  county : Option String := none
  state_district : Option String := none
  state : Option (Option String) := none
deriving DecidableEq, Repr

/-- Outcome of the HTTP exchange: failure covers timeouts, error statuses
and malformed payloads; success carries the address object, where none
stands for a missing or empty address dict (both are falsy). -/
inductive NominatimOutcome
  | failure
  | success (address : Option Address)
deriving DecidableEq, Repr

/-- First truthy value of a candidate list, as the for loop with break. -/
def firstTruthy : List (Option String) → Option String
  | [] => none
  | o :: rest => if pyStrB o then o else firstTruthy rest

/-- Embedding of fetch_location_from_nominatim after the HTTP exchange: on
failure or an empty address both results stay null; otherwise country is
taken as is and city is the first truthy locality candidate, then the raw
state value when that key exists, then the fixed sentinel. -/
def fetch_location_from_nominatim (o : NominatimOutcome) :
    Option String × Option String :=
  match o with
  | NominatimOutcome.failure => (none, none)
  | NominatimOutcome.success none => (none, none)
  | NominatimOutcome.success (some a) =>
    let city := firstTruthy
      [a.city, a.town, a.village, a.hamlet, a.municipality, a.county, a.state_district]
    let city := if pyStrB city then city
      else match a.state with
        | some v => v
        | none => some "Unbekannter Ort"
    (a.country, city)

/-- Distance function used by concrete witnesses: the taxicab distance on
the coordinate plane, standing in for any distance the sweep may be given. -/
def distL1 : ℚ → ℚ → ℚ → ℚ → ℚ := fun a b c d => |a - c| + |b - d|

/-- Witness point 1. -/
def ptP1 : PtRec := ⟨"p1.jpg", 0, 0⟩

/-- Witness point 2. -/
def ptP2 : PtRec := ⟨"p2.jpg", 0, 1⟩

/-- Witness point 3. -/
def ptP3 : PtRec := ⟨"p3.jpg", 0, 3⟩

/-- Network oracle that always succeeds with a fixed place. -/
def fetchBerlin : ℚ → ℚ → Option String × Option String :=
  fun _ _ => (some "Deutschland", some "Berlin")

/-- Network oracle that always fails, as on a timeout. -/
def fetchNone : ℚ → ℚ → Option String × Option String :=
  fun _ _ => (none, none)

/-- Cached record with a capture timestamp but no country, as left behind by
an earlier scan whose geocoding failed. -/
def recC1 : MemRecord :=
  { latitude := some 1, longitude := some 2
    datetime_original := some "2020:01:01 10:00:00" }

/-- EXIF oracle value with coordinates and a timestamp. -/
def exifC1 : ExifData :=
  { lat := some 1, lon := some 2, datetime := some "2020:01:01 10:00:00" }

/-- Cached record with a known city but no country and no timestamp. -/
def recC9 : MemRecord :=
  { latitude := some 1, longitude := some 2, city := some "Berlin" }

/-- EXIF oracle value with coordinates only. -/
def exifC9 : ExifData := { lat := some 1, lon := some 2 }

/-- Fresh-scan record sitting on the equator: latitude exactly 0. -/
def recC4 : MemRecord :=
  { lat := some 0, lon := some 5, country := some "UK", city := some "London"
    datetime := some "2020:01:01 00:00:00" }

/-- Fresh-scan record on the prime meridian: longitude exactly 0. -/
def recC5 : MemRecord := { lat := some 7, lon := some 0 }

/-- Prior on-disk row representing good persisted data. -/
def rowPrior : CsvRow := ⟨"a.jpg", NumCell.num 1, NumCell.num 2, "DE", "Berlin", ""⟩

/-- Well-formed row appearing before the malformed one. -/
def rowGoodA : CsvRow :=
  ⟨"a.jpg", NumCell.num 1, NumCell.num 2, "DE", "Berlin", "2020:01:01 00:00:00"⟩

/-- Malformed row: its latitude cell raises in float. -/
def rowBad : CsvRow := ⟨"b.jpg", NumCell.bad, NumCell.empty, "", "", ""⟩

/-- Well-formed row appearing after the malformed one. -/
def rowGoodC : CsvRow := ⟨"c.jpg", NumCell.num 3, NumCell.num 4, "FR", "Paris", ""⟩

/-- Address carrying only a city value, for the resolver witness. -/
def addrBonn : Address := { city := some "Bonn" }

/-- Cached record whose country is already known. -/
def recKnown : MemRecord :=
  { latitude := some 3, longitude := some 4
    country := some "DE", city := some "Hamburg" }

theorem lookup_dictInsert_self [BEq α] [LawfulBEq α] (l : List (α × β)) (k : α) (v : β) :
    (dictInsert l k v).lookup k = some v := by
  induction l with
  | nil => simp [dictInsert, List.lookup]
  | cons h t ih =>
    obtain ⟨k', v'⟩ := h
    by_cases hk : k' = k
    · subst hk
      simp [dictInsert, List.lookup]
    · simp only [dictInsert, beq_eq_false_iff_ne.mpr hk, if_neg]
      simp [List.lookup, beq_eq_false_iff_ne.mpr (Ne.symm hk), ih]

theorem lookup_dictInsert_ne [BEq α] [LawfulBEq α] (l : List (α × β)) (k : α) (v : β)
    (k' : α) (h : k' ≠ k) :
    (dictInsert l k v).lookup k' = l.lookup k' := by
  induction l with
  | nil => simp [dictInsert, List.lookup, beq_eq_false_iff_ne.mpr h]
  | cons hd t ih =>
    obtain ⟨a, b⟩ := hd
    by_cases hk : a = k
    · subst hk
      simp [dictInsert, List.lookup, beq_eq_false_iff_ne.mpr h]
    · simp only [dictInsert, beq_eq_false_iff_ne.mpr hk, if_neg]
      by_cases ha : k' = a
      · subst ha
        simp [List.lookup]
      · simp [List.lookup, beq_eq_false_iff_ne.mpr ha, ih]

theorem lookup_some_mem [BEq α] [LawfulBEq α] {l : List (α × β)} {k : α} {v : β}
    (h : l.lookup k = some v) : (k, v) ∈ l := by
  induction l with
  | nil => simp [List.lookup] at h
  | cons hd t ih =>
    obtain ⟨a, b⟩ := hd
    by_cases ha : k = a
    · subst ha
      simp [List.lookup] at h
      simp [h]
    · simp [List.lookup, beq_eq_false_iff_ne.mpr ha] at h
      exact List.mem_cons_of_mem _ (ih h)

theorem mem_lookup_isSome [BEq α] [LawfulBEq α] {l : List (α × β)} {k : α} {v : β}
    (h : (k, v) ∈ l) : (l.lookup k).isSome := by
  induction l with
  | nil => simp at h
  | cons hd t ih =>
    obtain ⟨a, b⟩ := hd
    by_cases ha : k = a
    · subst ha
      simp [List.lookup]
    · rcases List.mem_cons.mp h with h1 | h1
      · exact absurd (congrArg Prod.fst h1) ha
      · simp only [List.lookup, beq_eq_false_iff_ne.mpr ha]
        exact ih h1

theorem mem_lookup_nodup [BEq α] [LawfulBEq α] {l : List (α × β)}
    (hn : (l.map Prod.fst).Nodup) {k : α} {v : β} (h : (k, v) ∈ l) :
    l.lookup k = some v := by
  induction l with
  | nil => simp at h
  | cons hd t ih =>
    obtain ⟨a, b⟩ := hd
    rcases List.mem_cons.mp h with h1 | h1
    · obtain ⟨hk, hv⟩ := Prod.mk.injEq _ _ _ _ ▸ h1
      subst hk
      subst hv
      simp [List.lookup]
    · rw [List.map_cons] at hn
      have hn' := List.nodup_cons.mp hn
      have hka : k ≠ a := by
        intro hk
        subst hk
        exact hn'.1 (List.mem_map.mpr ⟨(k, v), h1, rfl⟩)
      simp only [List.lookup, beq_eq_false_iff_ne.mpr hka]
      exact ih hn'.2 h1

theorem freshCheck_iff (s o : List (String × ℚ)) (ho : (o.map Prod.fst).Nodup) :
    freshCheck s o = true ↔ ∀ k, s.lookup k = o.lookup k := by
  constructor
  · intro h k
    rw [freshCheck, Bool.and_eq_true, List.all_eq_true, List.all_eq_true] at h
    obtain ⟨h1, h2⟩ := h
    cases hok : o.lookup k with
    | some v =>
      have hv := h1 (k, v) (lookup_some_mem hok)
      cases hsk : s.lookup k with
      | some w =>
        rw [hsk] at hv
        simp only [decide_eq_true_eq] at hv
        rw [hv]
      | none => rw [hsk] at hv; exact absurd hv (by simp)
    | none =>
      cases hsk : s.lookup k with
      | some w =>
        have := h2 (k, w) (lookup_some_mem hsk)
        rw [hok] at this
        exact absurd this (by simp)
      | none => rfl
  · intro h
    rw [freshCheck, Bool.and_eq_true, List.all_eq_true, List.all_eq_true]
    constructor
    · intro pm hpm
      have : o.lookup pm.1 = some pm.2 := mem_lookup_nodup ho (by simpa using hpm)
      rw [h pm.1, this]
      simp
    · intro pm hpm
      have := mem_lookup_isSome (show (pm.1, pm.2) ∈ s by simpa using hpm)
      rw [h pm.1] at this
      exact this

theorem freshCheck_refl (o : List (String × ℚ)) (ho : (o.map Prod.fst).Nodup) :
    freshCheck o o = true :=
  (freshCheck_iff o o ho).mpr fun _ => rfl

theorem load_data_second_no_write (read : String → Option (List String))
    (o : List (String × ℚ)) (ho : (o.map Prod.fst).Nodup) (st : RootState) :
    (load_data read (load_data read st o).1 o).2.1 = false := by
  have hrefl := freshCheck_refl o ho
  have key : ∀ s : RootState,
      ((load_data read s o).1 = s ∧ (load_data read s o).2.1 = false) ∨
      (∃ ds, (load_data read s o).1 = ⟨some ds, some o⟩) := by
    intro s
    have hre : ∀ s' : RootState,
        ((rebuild_combined read s' o).1 = s' ∧ (rebuild_combined read s' o).2.1 = false) ∨
        (∃ ds, (rebuild_combined read s' o).1 = ⟨some ds, some o⟩) := by
      intro s'
      rw [rebuild_combined]
      cases hdfs : (o.filterMap fun pm => read pm.1).isEmpty with
      | true => left; simp
      | false => right; simp
    obtain ⟨d, m⟩ := s
    match d, m with
    | some ds, some mm =>
      cases hf : freshCheck mm o with
      | true => left; simp [load_data, hf]
      | false => simpa [load_data, hf] using hre ⟨some ds, some mm⟩
    | some ds, none => simpa [load_data] using hre ⟨some ds, none⟩
    | none, mm => simpa [load_data] using hre ⟨none, mm⟩
  rcases key st with ⟨h1, h2⟩ | ⟨ds, h1⟩
  · rw [h1]
    exact h2
  · rw [h1]
    simp [load_data, hrefl]

theorem scanGeo_shape (fetch : ℚ → ℚ → Option String × Option String)
    (st : ScanState) (rp : String) (exif : ExifData) :
    (∃ v, (scanGeo fetch st (rp, exif)).1.table = dictInsert st.table rp v) ∧
    ∀ e ∈ (scanGeo fetch st (rp, exif)).2, e.path = rp := by
  rcases hl : exif.lat with _ | la
  · exact ⟨⟨{ datetime := exif.datetime }, by simp [scanGeo, hl]⟩, by simp [scanGeo, hl]⟩
  · rcases hlo : exif.lon with _ | lo
    · exact ⟨⟨{ datetime := exif.datetime }, by simp [scanGeo, hl, hlo]⟩,
        by simp [scanGeo, hl, hlo]⟩
    · rcases hcc : List.lookup (round2 la, round2 lo) st.apiCache with _ | cc
      · exact ⟨⟨freshRec la lo (fetch la lo).1 (fetch la lo).2 exif.datetime,
          by simp [scanGeo, hl, hlo, hcc]⟩, by simp [scanGeo, hl, hlo, hcc]⟩
      · exact ⟨⟨freshRec la lo cc.1 cc.2 exif.datetime,
          by simp [scanGeo, hl, hlo, hcc]⟩, by simp [scanGeo, hl, hlo, hcc]⟩

theorem scanStep_shape (fetch : ℚ → ℚ → Option String × Option String)
    (st : ScanState) (rp : String) (exif : ExifData) :
    ((scanStep fetch st (rp, exif)).1.table = st.table ∨
     ∃ v, (scanStep fetch st (rp, exif)).1.table = dictInsert st.table rp v) ∧
    ∀ e ∈ (scanStep fetch st (rp, exif)).2, e.path = rp := by
  rcases hlk : st.table.lookup rp with _ | r
  · have h := scanGeo_shape fetch st rp exif
    have heq : scanStep fetch st (rp, exif) = scanGeo fetch st (rp, exif) := by
      rw [scanStep]
      simp [hlk]
    rw [heq]
    exact ⟨Or.inr h.1, h.2⟩
  · cases hdt : pyStrB r.datetime_original with
    | true =>
      have heq : scanStep fetch st (rp, exif) = (st, []) := by
        rw [scanStep]
        simp [hlk, hdt]
      rw [heq]
      simp
    | false =>
      cases hc : pyStrB r.country with
      | true =>
        have heq : scanStep fetch st (rp, exif) =
            ({ table := dictInsert st.table rp { r with datetime_original := exif.datetime }
               apiCache := st.apiCache }, []) := by
          rw [scanStep]
          simp [hlk, hdt, hc]
        rw [heq]
        simp
      | false =>
        have heq : scanStep fetch st (rp, exif) = scanGeo fetch st (rp, exif) := by
          rw [scanStep]
          simp [hlk, hdt, hc]
        rw [heq]
        have h := scanGeo_shape fetch st rp exif
        exact ⟨Or.inr h.1, h.2⟩

theorem scanStep_preserves_known (fetch : ℚ → ℚ → Option String × Option String)
    (st : ScanState) (f : String × ExifData) (p : String) (r : MemRecord)
    (hp : st.table.lookup p = some r) (hc : pyStrB r.country = true) :
    ∃ r2, (scanStep fetch st f).1.table.lookup p = some r2 ∧
      r2.country = r.country ∧ r2.city = r.city ∧
      ∀ e ∈ (scanStep fetch st f).2, e.path ≠ p := by
  obtain ⟨rp, exif⟩ := f
  by_cases hrp : rp = p
  · subst hrp
    cases hdt : pyStrB r.datetime_original with
    | true =>
      have heq : scanStep fetch st (rp, exif) = (st, []) := by
        rw [scanStep]
        simp [hp, hdt]
      rw [heq]
      exact ⟨r, hp, rfl, rfl, by simp⟩
    | false =>
      have heq : scanStep fetch st (rp, exif) =
          ({ table := dictInsert st.table rp { r with datetime_original := exif.datetime }
             apiCache := st.apiCache }, []) := by
        rw [scanStep]
        simp [hp, hdt, hc]
      rw [heq]
      exact ⟨{ r with datetime_original := exif.datetime },
        by simp [lookup_dictInsert_self], rfl, rfl, by simp⟩
  · obtain ⟨hshape, hev⟩ := scanStep_shape fetch st rp exif
    have hpev : ∀ e ∈ (scanStep fetch st (rp, exif)).2, e.path ≠ p := by
      intro e he
      rw [hev e he]
      exact hrp
    rcases hshape with h | ⟨v, h⟩
    · exact ⟨r, by rw [h]; exact hp, rfl, rfl, hpev⟩
    · refine ⟨r, ?_, rfl, rfl, hpev⟩
      rw [h, lookup_dictInsert_ne _ _ _ _ (fun hh => hrp hh.symm)]
      exact hp

theorem scanFold_preserves_known (fetch : ℚ → ℚ → Option String × Option String)
    (files : List (String × ExifData)) (st : ScanState) (p : String) (r : MemRecord)
    (hp : st.table.lookup p = some r) (hc : pyStrB r.country = true) :
    (∃ r2, (scanFold fetch files st).1.table.lookup p = some r2 ∧
      r2.country = r.country ∧ r2.city = r.city) ∧
    ∀ e ∈ (scanFold fetch files st).2, e.path ≠ p := by
  induction files generalizing st r with
  | nil =>
    rw [scanFold]
    exact ⟨⟨r, hp, rfl, rfl⟩, by simp⟩
  | cons f rest ih =>
    obtain ⟨r2, h2, hco, hci, hev⟩ := scanStep_preserves_known fetch st f p r hp hc
    have hc2 : pyStrB r2.country = true := by rw [hco]; exact hc
    obtain ⟨⟨r3, h3, hco3, hci3⟩, hev3⟩ := ih (scanStep fetch st f).1 r2 h2 hc2
    rw [scanFold]
    refine ⟨⟨r3, h3, by rw [hco3, hco], by rw [hci3, hci]⟩, ?_⟩
    intro e he
    simp only [List.mem_append] at he
    rcases he with he | he
    · exact hev e he
    · exact hev3 e he

theorem load_rows_append_bad (bad : CsvRow) (hbad : parseRow bad = none)
    (rest : List CsvRow) :
    ∀ (l : List CsvRow) (acc : List (String × MemRecord)),
      (∀ r ∈ l, (parseRow r).isSome) →
      load_rows (l ++ bad :: rest) acc = load_rows l acc := by
  intro l
  induction l with
  | nil =>
    intro acc _
    simp [load_rows, hbad]
  | cons r t ih =>
    intro acc hall
    obtain ⟨rec, hrec⟩ := Option.isSome_iff_exists.mp (hall r (List.mem_cons_self r t))
    rw [List.cons_append, load_rows, hrec, load_rows, hrec]
    exact ih _ fun x hx => hall x (List.mem_cons_of_mem _ hx)

theorem load_rows_lookup_isSome :
    ∀ (rows : List CsvRow) (acc : List (String × MemRecord)) (k : String),
      (∀ r ∈ rows, (parseRow r).isSome) →
      ((acc.lookup k).isSome ∨ k ∈ rows.map CsvRow.filepath) →
      ((load_rows rows acc).lookup k).isSome := by
  intro rows
  induction rows with
  | nil =>
    intro acc k _ h
    rcases h with h | h
    · simpa [load_rows] using h
    · simp at h
  | cons r t ih =>
    intro acc k hall h
    obtain ⟨rec, hrec⟩ := Option.isSome_iff_exists.mp (hall r (List.mem_cons_self r t))
    rw [load_rows, hrec]
    have htail : ∀ x ∈ t, (parseRow x).isSome :=
      fun x hx => hall x (List.mem_cons_of_mem _ hx)
    by_cases hk : k = r.filepath
    · subst hk
      exact ih _ _ htail (Or.inl (by simp [lookup_dictInsert_self]))
    · rcases h with h | h
      · exact ih _ _ htail (Or.inl (by rwa [lookup_dictInsert_ne _ _ _ _ hk]))
      · rw [List.map_cons, List.mem_cons] at h
        rcases h with h | h
        · exact absurd h hk
        · exact ih _ _ htail (Or.inr h)

theorem scanStep_eq_scanGeo (fetch : ℚ → ℚ → Option String × Option String)
    (st : ScanState) (rp : String) (exif : ExifData)
    (h : st.table.lookup rp = none ∨
      ∃ r, st.table.lookup rp = some r ∧ pyStrB r.datetime_original = false ∧
        pyStrB r.country = false) :
    scanStep fetch st (rp, exif) = scanGeo fetch st (rp, exif) := by
  rw [scanStep]
  rcases h with h | ⟨r, hr, hdt, hc⟩
  · simp [h]
  · simp [hr, hdt, hc]

/-- Claim C4 (code bug): saving and reloading a folder-cache table is meant
to reproduce every field value, including coordinates that are exactly 0;
but for a fresh-scan record the writer evaluates the coordinate with a
Python or, which treats the float 0.0 as missing, so a latitude of exactly 0
is written as an empty cell and reloads as null. -/
theorem roundtrip_zero_latitude_bug :
    recC4.lat = some 0 ∧ recC4.lon = some 5 ∧
    load_csv_cache (some (save_csv_cache [("a.jpg", recC4)])) =
      [("a.jpg",
        { latitude := none, longitude := some 5, country := some "UK",
          city := some "London",
          datetime_original := some "2020:01:01 00:00:00" })] := by
  decide

/-- Claim C5 (code bug): the coordinate pair is meant to stay atomic through
every operation, but a fresh-scan record with longitude exactly 0 and a
nonzero latitude comes back from save-then-load with the latitude present
and the longitude null, a one-sided pair. -/
theorem coordinate_atomicity_bug :
    recC5.lat = some 7 ∧ recC5.lon = some 0 ∧
    load_csv_cache (some (save_csv_cache [("b.jpg", recC5)])) =
      [("b.jpg", { latitude := some 7, longitude := none })] := by
  decide

/-- Counterexample to claim C6: a save interrupted immediately after opening
the target leaves an empty file, not the prior good data, because the file
is opened with truncating mode w and written in place. -/
theorem save_truncates_counterexample :
    save_csv_interrupted (some [rowPrior]) [("x.jpg", ({} : MemRecord))] 0 = some [] ∧
    some ([] : List CsvRow) ≠ some [rowPrior] := by
  decide

/-- Claim C6 (corrected): save writes the table in place into the truncated
target, so an interrupted save keeps only the rows already written out of
the new encoding and never any prior content; a completed save leaves
exactly the encoded table. -/
theorem save_in_place_semantics :
    (∀ prior data, save_csv_interrupted prior data data.length =
      some (save_csv_cache data)) ∧
    (∀ p1 p2 data k, save_csv_interrupted p1 data k = save_csv_interrupted p2 data k) ∧
    (∀ prior data, save_csv_interrupted prior data 0 = some []) := by
  refine ⟨?_, ?_, ?_⟩
  · intro prior data
    rw [save_csv_interrupted]
    have h : (save_csv_cache data).length = data.length := List.length_map _ _
    rw [← h, List.take_length]
  · intro p1 p2 data k
    rfl
  · intro prior data
    simp [save_csv_interrupted]

/-- Counterexample to claim C7: a well-formed row that follows a malformed
row is dropped, because the exception handler wraps the whole loop and the
loop never resumes past the raising row. -/
theorem load_aborts_counterexample :
    (parseRow rowGoodC).isSome = true ∧
    load_csv_cache (some [rowGoodA, rowBad, rowGoodC]) =
      [("a.jpg",
        { latitude := some 1, longitude := some 2, country := some "DE",
          city := some "Berlin",
          datetime_original := some "2020:01:01 00:00:00" })] := by
  decide

/-- Claim C7 (corrected): an absent file loads as the empty table; a
malformed row never raises to the caller, but it ends parsing at that row,
so the rows before it are returned and the malformed row together with
every later row is dropped; when every row is well formed, every row ends
up in the returned table. -/
theorem load_malformed_behavior :
    load_csv_cache none = [] ∧
    (∀ pre bad rest, (∀ r ∈ pre, (parseRow r).isSome) → parseRow bad = none →
      load_csv_cache (some (pre ++ bad :: rest)) = load_csv_cache (some pre)) ∧
    (∀ rows, (∀ r ∈ rows, (parseRow r).isSome) →
      ∀ r ∈ rows, ∃ rec, (load_csv_cache (some rows)).lookup r.filepath = some rec) := by
  refine ⟨rfl, ?_, ?_⟩
  · intro pre bad rest hpre hbad
    simp only [load_csv_cache]
    exact load_rows_append_bad bad hbad rest pre [] hpre
  · intro rows hall r hr
    have h := load_rows_lookup_isSome rows [] r.filepath hall
      (Or.inr (List.mem_map.mpr ⟨r, hr, rfl⟩))
    obtain ⟨rec, hrec⟩ := Option.isSome_iff_exists.mp h
    exact ⟨rec, by simpa [load_csv_cache] using hrec⟩

/-- Witness for C7: concrete file on which a malformed middle row cuts the
load short, obtained from the corrected theorem. -/
theorem load_malformed_behavior_witness :
    (∀ r ∈ [rowGoodA], (parseRow r).isSome) ∧ parseRow rowBad = none ∧
    load_csv_cache (some ([rowGoodA] ++ rowBad :: [rowGoodC])) =
      load_csv_cache (some [rowGoodA]) :=
  ⟨by decide, by decide,
    load_malformed_behavior.2.1 [rowGoodA] rowBad [rowGoodC] (by decide) (by decide)⟩

/-- Claim C8 (confirmed): when the cancel signal is observed at any file
boundary, including the final check before saving, the persisted
folder-cache file is exactly the file that was there before the call. -/
theorem scan_cancel_no_save (fetch : ℚ → ℚ → Option String × Option String)
    (oldFile : Option (List CsvRow)) (files : List (String × ExifData))
    (k : ℕ) (hk : k ≤ files.length) :
    process_image_folder fetch oldFile files (some k) = oldFile := by
  rw [process_image_folder]
  cases he : files.isEmpty with
  | true => simp
  | false =>
    have hnk : ¬ files.length < k := Nat.not_lt.mpr hk
    simp [he, hnk]

/-- Witness for C8: a one-file folder cancelled at the first poll leaves the
absent cache file absent. -/
theorem scan_cancel_no_save_witness :
    0 ≤ [(("a.jpg" : String), ({} : ExifData))].length ∧
    process_image_folder fetchBerlin none [("a.jpg", ({} : ExifData))] (some 0) = none :=
  ⟨by decide, scan_cancel_no_save fetchBerlin none [("a.jpg", {})] 0 (by decide)⟩

/-- Counterexample to claim C1: a cached record with a capture timestamp but
no country, for a file that has coordinates, is skipped outright — no
geocode resolution happens and the record is left unchanged, although the
claim requires geocoding to be attempted for it. -/
theorem scan_skip_counterexample :
    pyStrB recC1.datetime_original = true ∧ recC1.country = none ∧
    exifC1.lat = some 1 ∧ exifC1.lon = some 2 ∧
    scanStep fetchBerlin ⟨[("a.jpg", recC1)], []⟩ ("a.jpg", exifC1) =
      (⟨[("a.jpg", recC1)], []⟩, []) := by
  decide

/-- Claim C1 (corrected): a file is skipped if and only if its path is
cached with a truthy capture timestamp — the country is not consulted for
the skip, so a record with a timestamp but no country is never geocoded
again; a cached record with a truthy country and falsy timestamp only has
its timestamp refreshed, without geocoding; and when the record is absent
or has a falsy country, a geocode resolution happens exactly when both
coordinates are present, otherwise an all-null record carrying only the
timestamp is stored. -/
theorem scan_step_spec (fetch : ℚ → ℚ → Option String × Option String)
    (st : ScanState) (rp : String) (exif : ExifData) :
    (∀ r, st.table.lookup rp = some r → pyStrB r.datetime_original = true →
      scanStep fetch st (rp, exif) = (st, [])) ∧
    (∀ r, st.table.lookup rp = some r → pyStrB r.datetime_original = false →
      pyStrB r.country = true →
      scanStep fetch st (rp, exif) =
        ({ table := dictInsert st.table rp { r with datetime_original := exif.datetime }
           apiCache := st.apiCache }, [])) ∧
    ((st.table.lookup rp = none ∨
      ∃ r, st.table.lookup rp = some r ∧ pyStrB r.datetime_original = false ∧
        pyStrB r.country = false) →
      ∀ la lo, exif.lat = some la → exif.lon = some lo →
        (scanStep fetch st (rp, exif)).2 =
          [⟨rp, (st.apiCache.lookup (round2 la, round2 lo)).isNone⟩]) ∧
    ((st.table.lookup rp = none ∨
      ∃ r, st.table.lookup rp = some r ∧ pyStrB r.datetime_original = false ∧
        pyStrB r.country = false) →
      (exif.lat = none ∨ exif.lon = none) →
      (scanStep fetch st (rp, exif)).2 = [] ∧
      (scanStep fetch st (rp, exif)).1.table =
        dictInsert st.table rp { datetime := exif.datetime }) := by
  refine ⟨?_, ?_, ?_, ?_⟩
  · intro r hr hdt
    rw [scanStep]
    simp [hr, hdt]
  · intro r hr hdt hc
    rw [scanStep]
    simp [hr, hdt, hc]
  · intro h la lo hla hlo
    rw [scanStep_eq_scanGeo fetch st rp exif h, scanGeo]
    rcases hcc : List.lookup (round2 la, round2 lo) st.apiCache with _ | cc
    · simp [hla, hlo, hcc]
    · simp [hla, hlo, hcc]
  · intro h hco
    rw [scanStep_eq_scanGeo fetch st rp exif h]
    rcases hco with h2 | h2
    · constructor <;> simp [scanGeo, h2]
    · rcases hl2 : exif.lat with _ | la
      · constructor <;> simp [scanGeo, hl2]
      · constructor <;> simp [scanGeo, hl2, h2]

/-- Witness for C1: the cached record of the counterexample input satisfies
the skip condition of the corrected theorem, which then yields the observed
no-op. -/
theorem scan_step_spec_witness :
    List.lookup "a.jpg" ([("a.jpg", recC1)] : List (String × MemRecord)) = some recC1 ∧
    pyStrB recC1.datetime_original = true ∧
    scanStep fetchBerlin ⟨[("a.jpg", recC1)], []⟩ ("a.jpg", exifC1) =
      (⟨[("a.jpg", recC1)], []⟩, []) :=
  ⟨by decide, by decide,
    (scan_step_spec fetchBerlin ⟨[("a.jpg", recC1)], []⟩ "a.jpg" exifC1).1 recC1
      (by decide) (by decide)⟩

/-- Claim C2 (confirmed): the stored dataset is reused, with nothing
written, exactly when the stored and observed manifests agree as key-value
maps; any added, removed or touched folder-cache file fails the check; and
a second load with an unchanged observation never writes the dataset
again. -/
theorem combined_cache_staleness (read : String → Option (List String))
    (s o : List (String × ℚ)) (ho : (o.map Prod.fst).Nodup) :
    (freshCheck s o = true ↔ ∀ k, s.lookup k = o.lookup k) ∧
    (∀ ds, (∀ k, s.lookup k = o.lookup k) →
      load_data read ⟨some ds, some s⟩ o = (⟨some ds, some s⟩, false, ds)) ∧
    (∀ st, (load_data read (load_data read st o).1 o).2.1 = false) := by
  refine ⟨freshCheck_iff s o ho, ?_, fun st => load_data_second_no_write read o ho st⟩
  intro ds h
  simp [load_data, (freshCheck_iff s o ho).mpr h]

/-- Witness for C2: a one-entry manifest observed unchanged is fresh against
itself and the second load after any first load writes nothing. -/
theorem combined_cache_staleness_witness :
    (([(("a", (1 : ℚ)))].map Prod.fst).Nodup) ∧
    freshCheck [("a", (1 : ℚ))] [("a", (1 : ℚ))] = true ∧
    (load_data (fun _ => none)
      (load_data (fun _ => none) ⟨none, none⟩ [("a", (1 : ℚ))]).1
      [("a", (1 : ℚ))]).2.1 = false := by
  have h := combined_cache_staleness (fun _ => none)
    [("a", (1 : ℚ))] [("a", (1 : ℚ))] (by simp)
  exact ⟨by simp, h.1.mpr fun k => rfl, h.2.2 ⟨none, none⟩⟩

/-- Counterexample to claim C9: a cached record with city Berlin but no
country is replaced wholesale when its geocode retry fails, so its non-null
city is overwritten with null. -/
theorem scan_city_nulled_counterexample :
    recC9.city = some "Berlin" ∧ recC9.country = none ∧
    (scanFold fetchNone [("a.jpg", exifC9)] ⟨[("a.jpg", recC9)], []⟩).1.table =
      [("a.jpg", freshRec 1 2 none none none)] ∧
    (freshRec 1 2 none none none).city = none := by
  decide

/-- Claim C9 (corrected): for a path whose loaded record has a truthy
country, the scan preserves that country and its city verbatim and never
issues a geocode resolution, cached or network, for that path; only records
without a country can be replaced, which may drop a non-null city. -/
theorem scan_country_preserved (fetch : ℚ → ℚ → Option String × Option String)
    (files : List (String × ExifData)) (cached : List (String × MemRecord))
    (p : String) (r : MemRecord)
    (hp : cached.lookup p = some r) (hc : pyStrB r.country = true) :
    (∃ r2, (scanFold fetch files ⟨cached, []⟩).1.table.lookup p = some r2 ∧
      r2.country = r.country ∧ r2.city = r.city) ∧
    ∀ e ∈ (scanFold fetch files ⟨cached, []⟩).2, e.path ≠ p :=
  scanFold_preserves_known fetch files ⟨cached, []⟩ p r hp hc

/-- Witness for C9: scanning a one-file folder whose record already has a
country leaves country and city intact and logs no resolution for it. -/
theorem scan_country_preserved_witness :
    List.lookup "a.jpg" ([("a.jpg", recKnown)] : List (String × MemRecord)) =
      some recKnown ∧
    pyStrB recKnown.country = true ∧
    ((∃ r2, (scanFold fetchBerlin [("a.jpg", exifC9)]
        ⟨[("a.jpg", recKnown)], []⟩).1.table.lookup "a.jpg" = some r2 ∧
      r2.country = recKnown.country ∧ r2.city = recKnown.city) ∧
    ∀ e ∈ (scanFold fetchBerlin [("a.jpg", exifC9)]
        ⟨[("a.jpg", recKnown)], []⟩).2, e.path ≠ "a.jpg") :=
  ⟨by decide, by decide,
    scan_country_preserved fetchBerlin [("a.jpg", exifC9)] [("a.jpg", recKnown)]
      "a.jpg" recKnown (by decide) (by decide)⟩

theorem firstTruthy_ne_empty :
    ∀ (l : List (Option String)) (s : String), firstTruthy l = some s → s ≠ "" := by
  intro l
  induction l with
  | nil =>
    intro s h
    simp [firstTruthy] at h
  | cons o rest ih =>
    intro s h
    rw [firstTruthy] at h
    cases ht : pyStrB o with
    | true =>
      rw [ht, if_pos rfl] at h
      subst h
      simpa [pyStrB] using ht
    | false =>
      rw [ht] at h
      simp at h
      exact ih s h

/-- Counterexample to claim C10: a successful response whose address object
is empty yields a null city, although the claim says the city is never null
on a successful lookup. -/
theorem fetch_city_null_counterexample :
    (fetch_location_from_nominatim (NominatimOutcome.success none)).2 = none := rfl

/-- Claim C10 (corrected): with a nonempty address object the city is the
first truthy locality field in the documented order; when no candidate is
truthy the raw state value is used whenever the state key exists, even if
that value is null, and the fixed sentinel only when the state key is
absent; the returned city is null only when no candidate is truthy and the
state key holds null (or, per the counterexample, the address object is
empty or missing). -/
theorem fetch_city_fallback (a : Address) :
    (pyStrB a.city = true →
      fetch_location_from_nominatim (NominatimOutcome.success (some a)) =
        (a.country, a.city)) ∧
    (pyStrB a.city = false → pyStrB a.town = true →
      fetch_location_from_nominatim (NominatimOutcome.success (some a)) =
        (a.country, a.town)) ∧
    (pyStrB a.city = false → pyStrB a.town = false → pyStrB a.village = true →
      fetch_location_from_nominatim (NominatimOutcome.success (some a)) =
        (a.country, a.village)) ∧
    (pyStrB a.city = false → pyStrB a.town = false → pyStrB a.village = false →
      pyStrB a.hamlet = true →
      fetch_location_from_nominatim (NominatimOutcome.success (some a)) =
        (a.country, a.hamlet)) ∧
    (pyStrB a.city = false → pyStrB a.town = false → pyStrB a.village = false →
      pyStrB a.hamlet = false → pyStrB a.municipality = true →
      fetch_location_from_nominatim (NominatimOutcome.success (some a)) =
        (a.country, a.municipality)) ∧
    (pyStrB a.city = false → pyStrB a.town = false → pyStrB a.village = false →
      pyStrB a.hamlet = false → pyStrB a.municipality = false →
      pyStrB a.county = true →
      fetch_location_from_nominatim (NominatimOutcome.success (some a)) =
        (a.country, a.county)) ∧
    (pyStrB a.city = false → pyStrB a.town = false → pyStrB a.village = false →
      pyStrB a.hamlet = false → pyStrB a.municipality = false →
      pyStrB a.county = false → pyStrB a.state_district = true →
      fetch_location_from_nominatim (NominatimOutcome.success (some a)) =
        (a.country, a.state_district)) ∧
    (∀ v, firstTruthy [a.city, a.town, a.village, a.hamlet, a.municipality,
        a.county, a.state_district] = none → a.state = some v →
      fetch_location_from_nominatim (NominatimOutcome.success (some a)) =
        (a.country, v)) ∧
    (firstTruthy [a.city, a.town, a.village, a.hamlet, a.municipality,
        a.county, a.state_district] = none → a.state = none →
      fetch_location_from_nominatim (NominatimOutcome.success (some a)) =
        (a.country, some "Unbekannter Ort")) ∧
    ((fetch_location_from_nominatim (NominatimOutcome.success (some a))).2 = none →
      firstTruthy [a.city, a.town, a.village, a.hamlet, a.municipality,
        a.county, a.state_district] = none ∧ a.state = some none) := by
  refine ⟨?_, ?_, ?_, ?_, ?_, ?_, ?_, ?_, ?_, ?_⟩
  · intro h1
    simp [fetch_location_from_nominatim, firstTruthy, h1]
  · intro h1 h2
    simp [fetch_location_from_nominatim, firstTruthy, h1, h2]
  · intro h1 h2 h3
    simp [fetch_location_from_nominatim, firstTruthy, h1, h2, h3]
  · intro h1 h2 h3 h4
    simp [fetch_location_from_nominatim, firstTruthy, h1, h2, h3, h4]
  · intro h1 h2 h3 h4 h5
    simp [fetch_location_from_nominatim, firstTruthy, h1, h2, h3, h4, h5]
  · intro h1 h2 h3 h4 h5 h6
    simp [fetch_location_from_nominatim, firstTruthy, h1, h2, h3, h4, h5, h6]
  · intro h1 h2 h3 h4 h5 h6 h7
    simp [fetch_location_from_nominatim, firstTruthy, h1, h2, h3, h4, h5, h6, h7]
  · intro v hft hs
    simp [fetch_location_from_nominatim, hft, hs, pyStrB]
  · intro hft hs
    simp [fetch_location_from_nominatim, hft, hs, pyStrB]
  · intro hn
    rcases hft : firstTruthy [a.city, a.town, a.village, a.hamlet,
        a.municipality, a.county, a.state_district] with _ | s
    · refine ⟨rfl, ?_⟩
      rcases hs : a.state with _ | v
      · simp [fetch_location_from_nominatim, hft, hs, pyStrB] at hn
      · rcases hv : v with _ | t
        · rfl
        · subst hv
          simp [fetch_location_from_nominatim, hft, hs, pyStrB] at hn
    · have hne := firstTruthy_ne_empty _ s hft
      simp [fetch_location_from_nominatim, hft, pyStrB, hne] at hn

/-- Witness for C10: an address whose city field is Bonn resolves to city
Bonn, by the first arm of the corrected fallback theorem. -/
theorem fetch_city_fallback_witness :
    pyStrB addrBonn.city = true ∧
    fetch_location_from_nominatim (NominatimOutcome.success (some addrBonn)) =
      (addrBonn.country, addrBonn.city) :=
  ⟨by decide, (fetch_city_fallback addrBonn).1 (by decide)⟩

/-- Claim C3 (confirmed): for any distance function and threshold, three
records in order P1, P2, P3 with the P1-P2 and P2-P3 distances within the
threshold but the P1-P3 distance beyond it are clustered into exactly two
clusters, the first seeded by P1 containing P1 and P2 with centroid their
coordinate mean, the second containing only P3 — membership is decided
against the seed alone, for otherwise P3, within the threshold of member
P2, would have been absorbed. -/
theorem clustering_non_transitive (dist : ℚ → ℚ → ℚ → ℚ → ℚ) (thr : ℚ)
    (P1 P2 P3 : PtRec)
    (h12 : dist P1.latitude P1.longitude P2.latitude P2.longitude ≤ thr)
    (h23 : dist P2.latitude P2.longitude P3.latitude P3.longitude ≤ thr)
    (h13 : thr < dist P1.latitude P1.longitude P3.latitude P3.longitude) :
    perform_clustering dist thr [P1, P2, P3] =
      [{ id := 0, points := [P1, P2]
         centroid_lat := (P1.latitude + P2.latitude) / 2
         centroid_lon := (P1.longitude + P2.longitude) / 2
         photo_count := 2 },
       { id := 1, points := [P3]
         centroid_lat := P3.latitude
         centroid_lon := P3.longitude
         photo_count := 1 }] := by
  have n12 : near dist thr P1 P2 = true := by
    simp only [near, decide_eq_true_eq]
    exact h12
  have n13 : near dist thr P1 P3 = false := by
    simp only [near, decide_eq_false_iff_not, not_le]
    exact h13
  have n23 := h23
  rw [perform_clustering, clusterGo]
  simp only [List.filter, n12, n13, Bool.not_true, Bool.not_false]
  rw [clusterGo]
  simp only [List.filter]
  rw [clusterGo]
  simp [ClusterData.mk.injEq]

/-- Witness for C3: three concrete points under the taxicab distance with
threshold 2 satisfy the hypotheses and produce the two predicted clusters. -/
theorem clustering_non_transitive_witness :
    (distL1 ptP1.latitude ptP1.longitude ptP2.latitude ptP2.longitude ≤ 2 ∧
     distL1 ptP2.latitude ptP2.longitude ptP3.latitude ptP3.longitude ≤ 2 ∧
     2 < distL1 ptP1.latitude ptP1.longitude ptP3.latitude ptP3.longitude) ∧
    perform_clustering distL1 2 [ptP1, ptP2, ptP3] =
      [{ id := 0, points := [ptP1, ptP2]
         centroid_lat := (ptP1.latitude + ptP2.latitude) / 2
         centroid_lon := (ptP1.longitude + ptP2.longitude) / 2
         photo_count := 2 },
       { id := 1, points := [ptP3]
         centroid_lat := ptP3.latitude
         centroid_lon := ptP3.longitude
         photo_count := 1 }] :=
  ⟨⟨by norm_num [distL1, ptP1, ptP2], by norm_num [distL1, ptP2, ptP3],
    by norm_num [distL1, ptP1, ptP3]⟩,
   clustering_non_transitive distL1 2 ptP1 ptP2 ptP3
     (by norm_num [distL1, ptP1, ptP2]) (by norm_num [distL1, ptP2, ptP3])
     (by norm_num [distL1, ptP1, ptP3])⟩
